import Mathlib

/-!
Verification of the season-navigation, genre-resolution and detail-loader
logic of a React podcast-browsing front end.

The JavaScript sources are shallowly embedded:
* component state is an explicit record, state setters become record updates;
* every side effect (smooth scroll, selection callback, HTTP request) is
  reified as a value emitted alongside the new state;
* JavaScript numbers holding array indices are embedded as `Int`
  (the code computes `currentSeasonIndex - 1`, which may be negative);
* the truthiness test `x || d` on an optional number field is embedded by
  `jsOrI` (both `undefined` and `0` are falsy in JavaScript);
* an out-of-bounds array element access followed by a property read, which
  would throw a TypeError at runtime, is embedded as an `Option.none` result.
-/

namespace Podcast

/-- An EPISODE record as consumed by `Modalseries`: optional explicit
episode number, title, description, optional audio file URL. -/
structure Episode where
  episode : Option Nat
  title : String
  description : String
  file : Option String
deriving DecidableEq

/-- A SEASON record as consumed by `SeasonScroller` and `Modalseries`:
optional explicit season number, title, image, episode list. -/
structure Season where
  season : Option Nat
  title : String
  image : String
  episodes : List Episode
deriving DecidableEq

/-- A SHOW record as fetched by `Modalseries` from the detail endpoint. -/
structure ShowData where
  id : String
  title : String
  description : String
  image : String
  updated : String
  seasons : List Season
deriving DecidableEq

/-- JavaScript `x || d` for `x : number | undefined`: `undefined` and `0`
are falsy, any other number is returned unchanged. -/
def jsOrI : Option Nat → Int → Int
  | some n, d => if n = 0 then d else (n : Int)
  | none, d => d

/-- JavaScript array indexing `xs[i]` for a possibly negative index:
out-of-range access yields `undefined`, embedded as `none`. -/
def jsGetElem (xs : List Season) (i : Int) : Option Season :=
  if 0 ≤ i then xs[i.toNat]? else none

/-- Accumulator for `jsFindIndex`, carrying the index of the head of the
remaining list. -/
def findIndexAux (p : Season → Bool) : List Season → Nat → Int
  | [], _ => -1
  | x :: xs, i => if p x then (i : Int) else findIndexAux p xs (i + 1)

/-- JavaScript `Array.prototype.findIndex`: index of the first element
satisfying `p`, and `-1` when there is none. -/
def jsFindIndex (p : Season → Bool) (xs : List Season) : Int :=
  findIndexAux p xs 0

/-- Accumulator for `jsIndexOf`. -/
def indexOfAux (a : Season) : List Season → Nat → Int
  | [], _ => -1
  | x :: xs, i => if x = a then (i : Int) else indexOfAux a xs (i + 1)

/-- JavaScript `Array.prototype.indexOf`: index of the first occurrence of
`a`, and `-1` when absent.  The source compares season objects with `===`
(reference equality); on lists without duplicates this coincides with the
structural equality used here. -/
def jsIndexOf (xs : List Season) (a : Season) : Int :=
  indexOfAux a xs 0

/-- The state held by `SeasonScroller`: `selectedSeason` (the dropdown
label, a string) and `currentSeasonIndex` (a 0-based array index). -/
structure ScrollerState where
  selectedSeason : String
  currentSeasonIndex : Int
deriving DecidableEq

/-- The initial scroller state: `useState("")` and `useState(0)`. -/
def initialScrollerState : ScrollerState :=
  { selectedSeason := "", currentSeasonIndex := 0 }

/-- Observable side effects of a scroller operation, in emission order:
`scroll v` is `scrollToSeason(v)` (smooth scroll to the anchor
`season-` followed by `v`), `callback v` is `onSeasonSelect(v)`. -/
inductive Effect where
  | scroll (value : String)
  | callback (value : String)
deriving DecidableEq

/-- The document element id targeted by `scrollToSeason`. -/
def scrollTargetId (seasonNumber : String) : String :=
  "season-" ++ seasonNumber

/-- `moveToNextSeason` from `SeasonScroller.jsx`: no-op when the seasons
list is empty or `currentSeasonIndex + 1` is not below the length;
otherwise advance the index, set the label to the display number of the
new season, scroll to it and fire the selection callback.  A `none`
result embeds the TypeError that reading `.season` of `undefined` would
throw (reachable states never produce it). -/
def moveToNextSeason (seasons : List Season) (st : ScrollerState) :
    Option (ScrollerState × List Effect) :=
  if seasons.length = 0 then some (st, [])
  else
    let nextIndex := st.currentSeasonIndex + 1
    if nextIndex < (seasons.length : Int) then
      match jsGetElem seasons nextIndex with
      | none => none
      | some nextSeason =>
        let nextSeasonNumber := jsOrI nextSeason.season (nextIndex + 1)
        some ({ selectedSeason := toString nextSeasonNumber,
                currentSeasonIndex := nextIndex },
              [Effect.scroll (toString nextSeasonNumber),
               Effect.callback (toString nextSeasonNumber)])
    else some (st, [])

/-- `moveToPreviousSeason` from `SeasonScroller.jsx`: symmetric to
`moveToNextSeason`, guarded by `currentSeasonIndex - 1 ≥ 0`. -/
def moveToPreviousSeason (seasons : List Season) (st : ScrollerState) :
    Option (ScrollerState × List Effect) :=
  if seasons.length = 0 then some (st, [])
  else
    let prevIndex := st.currentSeasonIndex - 1
    if 0 ≤ prevIndex then
      match jsGetElem seasons prevIndex with
      | none => none
      | some prevSeason =>
        let prevSeasonNumber := jsOrI prevSeason.season (prevIndex + 1)
        some ({ selectedSeason := toString prevSeasonNumber,
                currentSeasonIndex := prevIndex },
              [Effect.scroll (toString prevSeasonNumber),
               Effect.callback (toString prevSeasonNumber)])
    else some (st, [])

/-- The predicate passed to `findIndex` inside `handleSeasonChange`:
the season's display string — explicit number when truthy, otherwise
`indexOf` position plus one — equals the dropdown value. -/
def seasonMatches (seasons : List Season) (value : String) (season : Season) :
    Bool :=
  decide (toString (jsOrI season.season (jsIndexOf seasons season + 1)) = value)

/-- `handleSeasonChange` from `SeasonScroller.jsx`: always store the raw
dropdown value as the label; when it is non-empty, look up the matching
season (updating the index only on a hit), then scroll and fire the
callback with the raw value. -/
def handleSeasonChange (seasons : List Season) (st : ScrollerState)
    (value : String) : ScrollerState × List Effect :=
  let st1 := { st with selectedSeason := value }
  if value = "" then (st1, [])
  else
    let seasonIndex := jsFindIndex (seasonMatches seasons value) seasons
    let st2 :=
      if seasonIndex ≠ -1 then { st1 with currentSeasonIndex := seasonIndex }
      else st1
    (st2, [Effect.scroll value, Effect.callback value])

/-- The `useEffect` on `[seasons]` in `SeasonScroller.jsx`: whenever the
seasons reference changes it only runs `setSelectedSeason("")` and
`setCurrentSeasonIndex(0)` — no scroll, no callback. -/
def resetOnSeasonsChange (newSeasons : List Season) (st : ScrollerState) :
    ScrollerState × List Effect :=
  (initialScrollerState, [])

/-- `isFirstSeason`, the boolean wired to `disabled` on the Previous
button. -/
def isFirstSeason (st : ScrollerState) : Bool :=
  decide (st.currentSeasonIndex = 0)

/-- `isLastSeason`, the boolean wired to `disabled` on the Next button. -/
def isLastSeason (seasons : List Season) (st : ScrollerState) : Bool :=
  decide (st.currentSeasonIndex = (seasons.length : Int) - 1)

/-- The display number of the season at 0-based position `i`, as computed
at every use site in the source (`season.season || i + 1` patterns in
`moveToNextSeason`, `moveToPreviousSeason` and the dropdown options). -/
def displayNumber (s : Season) (i : Nat) : Int :=
  jsOrI s.season ((i : Int) + 1)

/-- States reachable by the scroller for a fixed seasons list: the reset
state, closed under the three user operations. -/
inductive Reachable (seasons : List Season) : ScrollerState → Prop where
  | init : Reachable seasons initialScrollerState
  | next {s s' : ScrollerState} {effs : List Effect} :
      Reachable seasons s → moveToNextSeason seasons s = some (s', effs) →
      Reachable seasons s'
  | prev {s s' : ScrollerState} {effs : List Effect} :
      Reachable seasons s → moveToPreviousSeason seasons s = some (s', effs) →
      Reachable seasons s'
  | select {s : ScrollerState} (value : String) :
      Reachable seasons s →
      Reachable seasons (handleSeasonChange seasons s value).1

/-- The rendered episode list key in `Modalseries`:
`episode.episode || episodeIndex` — the fallback is the 0-based position
itself, not the 1-based one. -/
def episodeKeyNumber (e : Episode) (i : Nat) : Int :=
  jsOrI e.episode (i : Int)

/-- The episode number shown by `Modalseries` (`Ep.` followed by
`episode.episode`): the raw field, with no positional fallback at all. -/
def episodeShownNumber (e : Episode) : Option Nat :=
  e.episode

/-- Modelled from the spec (for comparison with the code): display number
of the season at 0-based position `i` is the explicit season number if
that field is present, and `i + 1` otherwise. -/
def specSeasonDisplayNumber (s : Season) (i : Nat) : Int :=
  match s.season with
  | some n => (n : Int)
  | none => (i : Int) + 1

/-- Modelled from the spec (for comparison with the code): display number
of the episode at 0-based position `i` is the explicit episode number if
present, and the 1-based position `i + 1` otherwise. -/
def specEpisodeDisplayNumber (e : Episode) (i : Nat) : Int :=
  match e.episode with
  | some n => (n : Int)
  | none => (i : Int) + 1

/-- A GENRE lookup entry. -/
structure Genre where
  id : Nat
  title : String
deriving DecidableEq

/-- The body of the `map` building `genreSpans` in `PodcastCard`: resolve
one genre id against the lookup table, falling back to the
`Unknown (id)` placeholder text. -/
def genreSpanText (genres : List Genre) (gid : Nat) : String :=
  match genres.find? (fun genre => genre.id == gid) with
  | some m => m.title
  | none => "Unknown (" ++ toString gid ++ ")"

/-- `genreSpans` from `PodcastCard`: `podcast.genres.map(...)`, keeping
order and length. -/
def genreSpans (genres : List Genre) (gids : List Nat) : List String :=
  gids.map (fun gid => genreSpanText genres gid)

/-- The static genre table (ids 1–9) documented in the repository README. -/
def standardGenres : List Genre :=
  [⟨1, "Personal Growth"⟩, ⟨2, "Investigative Journalism"⟩, ⟨3, "History"⟩,
   ⟨4, "Comedy"⟩, ⟨5, "Entertainment"⟩, ⟨6, "Business"⟩, ⟨7, "Fiction"⟩,
   ⟨8, "News"⟩, ⟨9, "Kids and Family"⟩]

/-- The state held by `Modalseries`: fetched show data, loading flag,
error message. -/
structure LoaderState where
  seriesData : Option ShowData
  loading : Bool
  error : Option String
deriving DecidableEq

/-- The initial loader state: `useState(null)`, `useState(false)`,
`useState(null)`. -/
def initialLoaderState : LoaderState :=
  { seriesData := none, loading := false, error := none }

/-- The outcome of one `fetch` of the detail endpoint as observed by the
`try`/`catch` in `fetchSeriesData`: a parsed SHOW payload, a non-ok HTTP
status (turned into a thrown `Error`), or a transport-level rejection. -/
inductive FetchResult where
  | ok (data : ShowData)
  | httpError (status : Nat)
  | transportError (message : String)
deriving DecidableEq

/-- The `err.message` the `catch` block observes for a failing fetch. -/
def errMessage : FetchResult → Option String
  | FetchResult.ok _ => none
  | FetchResult.httpError status => some ("HTTP error! status: " ++ toString status)
  | FetchResult.transportError message => some message

/-- The error string stored by the `catch` block:
`Failed to load data for series` then the id, a colon and `err.message`. -/
def failureMessage (id emsg : String) : String :=
  "Failed to load data for series " ++ id ++ ": " ++ emsg

/-- The URL requested by `fetchSeriesData` for a given id. -/
def fetchUrl (id : String) : String :=
  "https://podcast-api.netlify.app/id/" ++ id

/-- The HTTP request `fetchSeriesData` issues: none when the id is falsy
(the early `if (!id) return`), otherwise a GET of `fetchUrl`. -/
def fetchRequest (id : String) : Option String :=
  if id = "" then none else some (fetchUrl id)

/-- `fetchSeriesData` from `Modalseries`, given the outcome of the network
call: early-return on a falsy id; otherwise set loading and clear the
error, then store the payload on success or store the failure message on
error, and finally clear the loading flag. -/
def fetchSeriesData (id : String) (resp : FetchResult) (st : LoaderState) :
    LoaderState :=
  if id = "" then st
  else
    let st1 := { st with loading := true, error := none }
    match resp with
    | FetchResult.ok data =>
        { st1 with seriesData := some data, loading := false }
    | FetchResult.httpError status =>
        { st1 with
            error := some (failureMessage id ("HTTP error! status: " ++ toString status)),
            loading := false }
    | FetchResult.transportError message =>
        { st1 with error := some (failureMessage id message), loading := false }

/-- The `useEffect` on `[seriesId]` in `Modalseries`: fetch only when the
id is truthy; paired with the request it issues (none when no fetch
happens). -/
def seriesIdChangedEffect (seriesId : String) (resp : FetchResult)
    (st : LoaderState) : LoaderState × Option String :=
  if seriesId = "" then (st, none)
  else (fetchSeriesData seriesId resp st, fetchRequest seriesId)

/-- The retry button's `onClick` in the error view:
`fetchSeriesData(seriesId)` with the component's current id, paired with
the request it issues. -/
def retryAction (seriesId : String) (resp : FetchResult) (st : LoaderState) :
    LoaderState × Option String :=
  (fetchSeriesData seriesId resp st, fetchRequest seriesId)

/-- `sub` occurs as a contiguous substring of `s`. -/
def strContains (s sub : String) : Prop :=
  ∃ pre post, s = pre ++ sub ++ post

/-! ### Helper lemmas about the JavaScript array-search embeddings -/

theorem findIndexAux_of_none (p : Season → Bool) :
    ∀ (xs : List Season) (i : Nat), (∀ x ∈ xs, p x = false) →
      findIndexAux p xs i = -1
  | [], _, _ => rfl
  | x :: xs, i, h => by
      have hx : p x = false := h x (by simp)
      simp only [findIndexAux, hx, Bool.false_eq_true, if_false]
      exact findIndexAux_of_none p xs (i + 1) fun y hy => h y (by simp [hy])

theorem findIndexAux_of_first (p : Season → Bool) :
    ∀ (xs : List Season) (i j : Nat) (hj : j < xs.length),
      p (xs.get ⟨j, hj⟩) = true →
      (∀ k (hk : k < j), p (xs.get ⟨k, Nat.lt_trans hk hj⟩) = false) →
      findIndexAux p xs i = (i : Int) + j
  | x :: xs, i, 0, _, hp, _ => by
      simp only [List.get] at hp
      simp [findIndexAux, hp]
  | x :: xs, i, j + 1, hj, hp, hmin => by
      have hx : p x = false := hmin 0 (Nat.succ_pos j)
      simp only [findIndexAux, hx, Bool.false_eq_true, if_false]
      have hj' : j < xs.length := Nat.lt_of_succ_lt_succ hj
      have hrec := findIndexAux_of_first p xs (i + 1) j hj' hp
        (fun k hk => hmin (k + 1) (Nat.succ_lt_succ hk))
      rw [hrec]
      push_cast
      ring

theorem findIndexAux_range (p : Season → Bool) :
    ∀ (xs : List Season) (i : Nat),
      findIndexAux p xs i = -1 ∨
        ((i : Int) ≤ findIndexAux p xs i ∧
          findIndexAux p xs i < (i : Int) + xs.length)
  | [], _ => Or.inl rfl
  | x :: xs, i => by
      by_cases hx : p x = true
      · right
        have hfi : findIndexAux p (x :: xs) i = (i : Int) := by
          simp [findIndexAux, hx]
        rw [hfi]
        simp only [List.length_cons]
        push_cast
        omega
      · simp only [findIndexAux, hx, if_false]
        rcases findIndexAux_range p xs (i + 1) with h | h
        · exact Or.inl h
        · right
          constructor
          · have := h.1; push_cast at this ⊢; omega
          · have := h.2; simp only [List.length_cons]; push_cast at this ⊢; omega

theorem indexOfAux_get :
    ∀ (xs : List Season), xs.Nodup → ∀ (j : Nat) (hj : j < xs.length) (i : Nat),
      indexOfAux (xs.get ⟨j, hj⟩) xs i = (i : Int) + j
  | x :: xs, _, 0, _, i => by simp [indexOfAux]
  | x :: xs, hnd, j + 1, hj, i => by
      have hj' : j < xs.length := Nat.lt_of_succ_lt_succ hj
      have hmem : xs.get ⟨j, hj'⟩ ∈ xs := xs.get_mem j hj'
      have hnotmem : x ∉ xs := (List.nodup_cons.mp hnd).1
      have hne : ¬ x = xs.get ⟨j, hj'⟩ := fun h => hnotmem (h ▸ hmem)
      show indexOfAux (xs.get ⟨j, hj'⟩) (x :: xs) i = (i : Int) + (j + 1)
      simp only [indexOfAux, hne, if_false]
      rw [indexOfAux_get xs (List.nodup_cons.mp hnd).2 j hj' (i + 1)]
      push_cast
      ring

theorem jsIndexOf_get (xs : List Season) (hnd : xs.Nodup) (j : Nat)
    (hj : j < xs.length) : jsIndexOf xs (xs.get ⟨j, hj⟩) = (j : Int) := by
  have := indexOfAux_get xs hnd j hj 0
  simpa [jsIndexOf] using this

/-- On a duplicate-free seasons list the `findIndex` predicate of
`handleSeasonChange`, applied to the season at position `j`, tests the
positional display number of that season against the dropdown value. -/
theorem seasonMatches_get (seasons : List Season) (hnd : seasons.Nodup)
    (value : String) (j : Nat) (hj : j < seasons.length) :
    seasonMatches seasons value (seasons.get ⟨j, hj⟩) =
      decide (toString (displayNumber (seasons.get ⟨j, hj⟩) j) = value) := by
  simp only [seasonMatches, displayNumber, jsIndexOf_get seasons hnd j hj]

/-! ### Characterizations of the scroller operations -/

theorem moveToNextSeason_advance {seasons : List Season} {st : ScrollerState}
    {i : Nat} (hst : st.currentSeasonIndex = (i : Int))
    (hi : i + 1 < seasons.length) :
    moveToNextSeason seasons st =
      some ({ selectedSeason :=
                toString (displayNumber (seasons.get ⟨i + 1, hi⟩) (i + 1)),
              currentSeasonIndex := (i : Int) + 1 },
            [Effect.scroll (toString (displayNumber (seasons.get ⟨i + 1, hi⟩) (i + 1))),
             Effect.callback (toString (displayNumber (seasons.get ⟨i + 1, hi⟩) (i + 1)))]) := by
  have hlen : ¬ seasons.length = 0 := by omega
  have hguard : (i : Int) + 1 < (seasons.length : Int) := by exact_mod_cast hi
  have ht : ((i : Int) + 1).toNat = i + 1 := by omega
  have hsome : seasons[i + 1]? = some (seasons.get ⟨i + 1, hi⟩) := by
    rw [List.getElem?_eq_getElem hi]
    simp [List.get_eq_getElem]
  have h0 : (0 : Int) ≤ (i : Int) + 1 := by omega
  simp only [moveToNextSeason, hst, hlen, if_false, hguard, if_true, jsGetElem,
    h0, ht, hsome, displayNumber]
  norm_num [jsOrI]

theorem moveToNextSeason_noop {seasons : List Season} {st : ScrollerState}
    (hne : seasons ≠ [])
    (h : ¬ st.currentSeasonIndex + 1 < (seasons.length : Int)) :
    moveToNextSeason seasons st = some (st, []) := by
  have hpos : 0 < seasons.length := List.length_pos.mpr hne
  have hlen : ¬ seasons.length = 0 := by omega
  simp only [moveToNextSeason, hlen, if_false, h]

theorem moveToPreviousSeason_retreat {seasons : List Season}
    {st : ScrollerState} {i : Nat}
    (hst : st.currentSeasonIndex = (i : Int) + 1) (hi : i < seasons.length) :
    moveToPreviousSeason seasons st =
      some ({ selectedSeason := toString (displayNumber (seasons.get ⟨i, hi⟩) i),
              currentSeasonIndex := (i : Int) },
            [Effect.scroll (toString (displayNumber (seasons.get ⟨i, hi⟩) i)),
             Effect.callback (toString (displayNumber (seasons.get ⟨i, hi⟩) i))]) := by
  have hlen : ¬ seasons.length = 0 := by omega
  have harith : (i : Int) + 1 - 1 = (i : Int) := by ring
  have h0 : (0 : Int) ≤ (i : Int) := by omega
  have ht : ((i : Int)).toNat = i := by omega
  have hsome : seasons[i]? = some (seasons.get ⟨i, hi⟩) := by
    rw [List.getElem?_eq_getElem hi]
    simp [List.get_eq_getElem]
  simp only [moveToPreviousSeason, hst, hlen, if_false, harith, h0, if_true,
    jsGetElem, ht, hsome, displayNumber]

theorem moveToPreviousSeason_noop {seasons : List Season} {st : ScrollerState}
    (hne : seasons ≠ []) (h : st.currentSeasonIndex - 1 < 0) :
    moveToPreviousSeason seasons st = some (st, []) := by
  have hpos : 0 < seasons.length := List.length_pos.mpr hne
  have hlen : ¬ seasons.length = 0 := by omega
  have h' : ¬ (0 : Int) ≤ st.currentSeasonIndex - 1 := by omega
  simp only [moveToPreviousSeason, hlen, if_false, h']

theorem handleSeasonChange_empty (seasons : List Season) (st : ScrollerState) :
    handleSeasonChange seasons st "" = ({ st with selectedSeason := "" }, []) := by
  simp [handleSeasonChange]

theorem handleSeasonChange_found {seasons : List Season} (hnd : seasons.Nodup)
    (st : ScrollerState) {value : String} (hv : value ≠ "") {j : Nat}
    (hj : j < seasons.length)
    (hmatch : toString (displayNumber (seasons.get ⟨j, hj⟩) j) = value)
    (hmin : ∀ k (hk : k < j),
      toString (displayNumber (seasons.get ⟨k, Nat.lt_trans hk hj⟩) k) ≠ value) :
    handleSeasonChange seasons st value =
      ({ selectedSeason := value, currentSeasonIndex := (j : Int) },
       [Effect.scroll value, Effect.callback value]) := by
  have hfind : jsFindIndex (seasonMatches seasons value) seasons = (j : Int) := by
    have := findIndexAux_of_first (seasonMatches seasons value) seasons 0 j hj
      (by rw [seasonMatches_get seasons hnd value j hj]; exact decide_eq_true hmatch)
      (fun k hk => by
        rw [seasonMatches_get seasons hnd value k (Nat.lt_trans hk hj)]
        exact decide_eq_false (hmin k hk))
    simpa [jsFindIndex] using this
  have hne : ((j : Int) ≠ -1) := by omega
  simp only [handleSeasonChange, hv, if_false, hfind, hne, ne_eq,
    not_false_eq_true, if_true]

theorem handleSeasonChange_notFound {seasons : List Season}
    (hnd : seasons.Nodup) (st : ScrollerState) {value : String} (hv : value ≠ "")
    (hnone : ∀ j (hj : j < seasons.length),
      toString (displayNumber (seasons.get ⟨j, hj⟩) j) ≠ value) :
    handleSeasonChange seasons st value =
      ({ st with selectedSeason := value },
       [Effect.scroll value, Effect.callback value]) := by
  have hfind : jsFindIndex (seasonMatches seasons value) seasons = -1 := by
    apply findIndexAux_of_none
    intro x hx
    rcases List.mem_iff_get.mp hx with ⟨⟨j, hj⟩, rfl⟩
    rw [seasonMatches_get seasons hnd value j hj]
    exact decide_eq_false (hnone j hj)
  simp [handleSeasonChange, hv, hfind]

theorem handleSeasonChange_index_cases (seasons : List Season)
    (st : ScrollerState) (value : String) :
    (handleSeasonChange seasons st value).1.currentSeasonIndex =
        st.currentSeasonIndex ∨
      (0 ≤ (handleSeasonChange seasons st value).1.currentSeasonIndex ∧
        (handleSeasonChange seasons st value).1.currentSeasonIndex <
          (seasons.length : Int)) := by
  by_cases hv : value = ""
  · subst hv
    rw [handleSeasonChange_empty]
    exact Or.inl rfl
  · have hr : jsFindIndex (seasonMatches seasons value) seasons =
        findIndexAux (seasonMatches seasons value) seasons 0 := rfl
    rcases findIndexAux_range (seasonMatches seasons value) seasons 0 with h | h
    · left
      have hm1 : ¬ jsFindIndex (seasonMatches seasons value) seasons ≠ -1 := by
        rw [hr]
        omega
      simp [handleSeasonChange, hv, hm1]
    · right
      have hm1 : findIndexAux (seasonMatches seasons value) seasons 0 ≠ -1 := by
        omega
      have hgoal : (handleSeasonChange seasons st value).1.currentSeasonIndex =
          findIndexAux (seasonMatches seasons value) seasons 0 := by
        simp [handleSeasonChange, hv, hm1, jsFindIndex]
      rw [hgoal]
      omega

/-- Invariant: every reachable scroller state for a non-empty seasons list
keeps the index inside `[0, length - 1]`. -/
theorem reachable_index_bounds {seasons : List Season} (hne : seasons ≠ [])
    {st : ScrollerState} (h : Reachable seasons st) :
    0 ≤ st.currentSeasonIndex ∧
      st.currentSeasonIndex ≤ (seasons.length : Int) - 1 := by
  have hpos : 0 < seasons.length := List.length_pos.mpr hne
  induction h with
  | init =>
      simp only [initialScrollerState]
      omega
  | next hr hstep ih =>
      rename_i s s' effs
      by_cases hlt : s.currentSeasonIndex + 1 < (seasons.length : Int)
      · have hs : s.currentSeasonIndex = (s.currentSeasonIndex.toNat : Int) :=
          (Int.toNat_of_nonneg ih.1).symm
        have hi : s.currentSeasonIndex.toNat + 1 < seasons.length := by omega
        rw [moveToNextSeason_advance hs hi] at hstep
        simp only [Option.some.injEq, Prod.mk.injEq] at hstep
        rw [← hstep.1]
        dsimp only
        omega
      · rw [moveToNextSeason_noop hne hlt] at hstep
        simp only [Option.some.injEq, Prod.mk.injEq] at hstep
        rw [← hstep.1]
        exact ih
  | prev hr hstep ih =>
      rename_i s s' effs
      by_cases hge : 0 ≤ s.currentSeasonIndex - 1
      · have hs : s.currentSeasonIndex =
            ((s.currentSeasonIndex - 1).toNat : Int) + 1 := by omega
        have hi : (s.currentSeasonIndex - 1).toNat < seasons.length := by omega
        rw [moveToPreviousSeason_retreat hs hi] at hstep
        simp only [Option.some.injEq, Prod.mk.injEq] at hstep
        rw [← hstep.1]
        dsimp only
        omega
      · rw [moveToPreviousSeason_noop hne (by omega)] at hstep
        simp only [Option.some.injEq, Prod.mk.injEq] at hstep
        rw [← hstep.1]
        exact ih
  | select value hr ih =>
      rename_i s
      rcases handleSeasonChange_index_cases seasons s value with h | h
      · rw [h]
        exact ih
      · omega

/-! ### Claim theorems -/

/-- C1: for every non-empty seasons list and every reachable scroller
state, the index stays inside `[0, length - 1]` under any sequence of
operations; `next` away from the last index advances the index by
exactly 1 and is a no-op at the last index; `previous` away from index 0
retreats by exactly 1 and is a no-op at index 0. -/
theorem seasonScroller_next_prev_bounds (seasons : List Season)
    (hne : seasons ≠ []) (st : ScrollerState) (hr : Reachable seasons st) :
    (0 ≤ st.currentSeasonIndex ∧
      st.currentSeasonIndex ≤ (seasons.length : Int) - 1) ∧
    (st.currentSeasonIndex < (seasons.length : Int) - 1 →
      ∃ st' effs, moveToNextSeason seasons st = some (st', effs) ∧
        st'.currentSeasonIndex = st.currentSeasonIndex + 1) ∧
    (st.currentSeasonIndex = (seasons.length : Int) - 1 →
      moveToNextSeason seasons st = some (st, [])) ∧
    (0 < st.currentSeasonIndex →
      ∃ st' effs, moveToPreviousSeason seasons st = some (st', effs) ∧
        st'.currentSeasonIndex = st.currentSeasonIndex - 1) ∧
    (st.currentSeasonIndex = 0 →
      moveToPreviousSeason seasons st = some (st, [])) := by
  have hb := reachable_index_bounds hne hr
  refine ⟨hb, ?_, ?_, ?_, ?_⟩
  · intro hlt
    have hs : st.currentSeasonIndex = (st.currentSeasonIndex.toNat : Int) :=
      (Int.toNat_of_nonneg hb.1).symm
    have hi : st.currentSeasonIndex.toNat + 1 < seasons.length := by omega
    exact ⟨_, _, moveToNextSeason_advance hs hi, by dsimp only; omega⟩
  · intro heq
    exact moveToNextSeason_noop hne (by omega)
  · intro hpos
    have hs : st.currentSeasonIndex =
        (((st.currentSeasonIndex - 1).toNat : Int)) + 1 := by omega
    have hi : (st.currentSeasonIndex - 1).toNat < seasons.length := by omega
    exact ⟨_, _, moveToPreviousSeason_retreat hs hi, by dsimp only; omega⟩
  · intro h0
    exact moveToPreviousSeason_noop hne (by omega)

/-- Witness for C1 at the two-season list and the initial state. -/
theorem seasonScroller_next_prev_bounds_witness :
    ∃ st' effs,
      moveToNextSeason
          [⟨some 1, "a", "", []⟩, ⟨some 2, "b", "", []⟩] initialScrollerState =
        some (st', effs) ∧
      st'.currentSeasonIndex = initialScrollerState.currentSeasonIndex + 1 :=
  (seasonScroller_next_prev_bounds
      [⟨some 1, "a", "", []⟩, ⟨some 2, "b", "", []⟩] (by decide)
      initialScrollerState Reachable.init).2.1 (by decide)

/-- C2: in every reachable state of the scroller over a non-empty seasons
list, the Previous button's `disabled` boolean is true exactly when the
index is 0 and the Next button's exactly when the index is `length - 1`. -/
theorem seasonScroller_disabled_iff (seasons : List Season)
    (hne : seasons ≠ []) (st : ScrollerState) (hr : Reachable seasons st) :
    (isFirstSeason st = true ↔ st.currentSeasonIndex = 0) ∧
    (isLastSeason seasons st = true ↔
      st.currentSeasonIndex = (seasons.length : Int) - 1) := by
  constructor <;> simp [isFirstSeason, isLastSeason]

/-- Witness for C2 at a one-season list and the initial state. -/
theorem seasonScroller_disabled_iff_witness :
    isFirstSeason initialScrollerState = true ↔
      initialScrollerState.currentSeasonIndex = 0 :=
  (seasonScroller_disabled_iff [⟨some 1, "a", "", []⟩] (by decide)
      initialScrollerState Reachable.init).1

/-- C3 as claimed fails on the code: an episode with no explicit number at
0-based position 0 gets list key 0, not the claimed 1-based fallback 1,
and its rendered number is the raw absent field; likewise a season whose
explicit number is the (present but falsy) 0 displays the positional
fallback 1 rather than 0. -/
theorem displayNumber_spec_counterexample :
    episodeKeyNumber
        { episode := none, title := "e", description := "d", file := none } 0 ≠
      specEpisodeDisplayNumber
        { episode := none, title := "e", description := "d", file := none } 0 ∧
    episodeShownNumber
        { episode := none, title := "e", description := "d", file := none } =
      none ∧
    displayNumber
        { season := some 0, title := "s", image := "", episodes := [] } 0 ≠
      specSeasonDisplayNumber
        { season := some 0, title := "s", image := "", episodes := [] } 0 := by
  decide

/-- C3 amended: the display number of the season at 0-based position `i`
(used for the label, the scroll target and the selection callback, as
`moveToNextSeason` shows) is the explicit season number when present and
nonzero and `i + 1` otherwise; the episode list key falls back to the
0-based position when the explicit episode number is absent or zero, and
the rendered episode number is the raw optional field with no fallback. -/
theorem displayNumber_amended :
    (∀ (s : Season) (i n : Nat), s.season = some n → n ≠ 0 →
      displayNumber s i = (n : Int)) ∧
    (∀ (s : Season) (i : Nat), s.season = none ∨ s.season = some 0 →
      displayNumber s i = (i : Int) + 1) ∧
    (∀ (seasons : List Season) (st : ScrollerState) (i : Nat)
      (hst : st.currentSeasonIndex = (i : Int)) (hi : i + 1 < seasons.length),
      moveToNextSeason seasons st =
        some ({ selectedSeason :=
                  toString (displayNumber (seasons.get ⟨i + 1, hi⟩) (i + 1)),
                currentSeasonIndex := (i : Int) + 1 },
              [Effect.scroll
                  (toString (displayNumber (seasons.get ⟨i + 1, hi⟩) (i + 1))),
               Effect.callback
                  (toString (displayNumber (seasons.get ⟨i + 1, hi⟩) (i + 1)))])) ∧
    (∀ (e : Episode) (i n : Nat), e.episode = some n → n ≠ 0 →
      episodeKeyNumber e i = (n : Int)) ∧
    (∀ (e : Episode) (i : Nat), e.episode = none ∨ e.episode = some 0 →
      episodeKeyNumber e i = (i : Int)) ∧
    (∀ e : Episode, episodeShownNumber e = e.episode) := by
  refine ⟨?_, ?_, ?_, ?_, ?_, ?_⟩
  · intro s i n hsome hn
    simp [displayNumber, jsOrI, hsome, hn]
  · rintro s i (h | h) <;> simp [displayNumber, jsOrI, h]
  · intro seasons st i hst hi
    exact moveToNextSeason_advance hst hi
  · intro e i n hsome hn
    simp [episodeKeyNumber, jsOrI, hsome, hn]
  · rintro e i (h | h) <;> simp [episodeKeyNumber, jsOrI, h]
  · intro e
    rfl

/-- Witness for the amended C3 at concrete season and episode records. -/
theorem displayNumber_amended_witness :
    displayNumber
        { season := some 5, title := "t", image := "", episodes := [] } 2 =
      (5 : Int) ∧
    episodeKeyNumber
        { episode := none, title := "e", description := "d", file := none } 3 =
      (3 : Int) :=
  ⟨displayNumber_amended.1
      { season := some 5, title := "t", image := "", episodes := [] } 2 5 rfl
      (by decide),
   displayNumber_amended.2.2.2.2.1
      { episode := none, title := "e", description := "d", file := none } 3
      (Or.inl rfl)⟩

/-- C4: on a duplicate-free seasons list, `handleSeasonChange` with the
empty string only clears the label (no index change, no scroll, no
callback); with a value equal to the display string of the first matching
season it moves the index there, stores the raw value as label, and
scrolls and fires the callback exactly once with the raw value; with a
non-empty value matching no season it leaves the index alone but still
stores the label and fires the scroll and the callback with the raw
value. -/
theorem handleSeasonChange_selectByLabel_spec (seasons : List Season)
    (hnd : seasons.Nodup) (st : ScrollerState) :
    (handleSeasonChange seasons st "" =
      ({ st with selectedSeason := "" }, [])) ∧
    (∀ (value : String) (j : Nat) (hj : j < seasons.length), value ≠ "" →
      toString (displayNumber (seasons.get ⟨j, hj⟩) j) = value →
      (∀ k (hk : k < j),
        toString (displayNumber (seasons.get ⟨k, Nat.lt_trans hk hj⟩) k) ≠
          value) →
      handleSeasonChange seasons st value =
        ({ selectedSeason := value, currentSeasonIndex := (j : Int) },
         [Effect.scroll value, Effect.callback value])) ∧
    (∀ value : String, value ≠ "" →
      (∀ j (hj : j < seasons.length),
        toString (displayNumber (seasons.get ⟨j, hj⟩) j) ≠ value) →
      handleSeasonChange seasons st value =
        ({ st with selectedSeason := value },
         [Effect.scroll value, Effect.callback value])) :=
  ⟨handleSeasonChange_empty seasons st,
   fun _ _ hj hv hm hmin => handleSeasonChange_found hnd st hv hj hm hmin,
   fun _ hv hnone => handleSeasonChange_notFound hnd st hv hnone⟩

/-- Witness for C4: selecting label "1" on a two-season list from the
initial state. -/
theorem handleSeasonChange_selectByLabel_witness :
    handleSeasonChange [⟨some 1, "a", "", []⟩, ⟨some 2, "b", "", []⟩]
        initialScrollerState "1" =
      ({ selectedSeason := "1", currentSeasonIndex := 0 },
       [Effect.scroll "1", Effect.callback "1"]) :=
  (handleSeasonChange_selectByLabel_spec
      [⟨some 1, "a", "", []⟩, ⟨some 2, "b", "", []⟩] (by decide)
      initialScrollerState).2.1 "1" 0 (by decide) (by decide) (by decide)
    (fun k hk => absurd hk (Nat.not_lt_zero k))

/-- C5: whenever the seasons reference changes, the scroller state is
fully reset — index 0, empty label — regardless of the prior state and of
the new seasons value. -/
theorem resetOnSeasonsChange_resets (newSeasons : List Season)
    (st : ScrollerState) :
    (resetOnSeasonsChange newSeasons st).1.currentSeasonIndex = 0 ∧
      (resetOnSeasonsChange newSeasons st).1.selectedSeason = "" :=
  ⟨rfl, rfl⟩

/-- C6: genre resolution is a pure function producing one display string
per id in order: the first matching entry's title (the match is unique
when the table's ids are duplicate-free), or the placeholder
`Unknown (id)`; in particular `[1, 3, 99]` over the standard 9-entry
table resolves as claimed. -/
theorem genreResolution_spec :
    (∀ (genres : List Genre) (gids : List Nat),
      (genreSpans genres gids).length = gids.length) ∧
    (∀ (genres : List Genre) (gids : List Nat) (k : Nat),
      (genreSpans genres gids)[k]? = (gids[k]?).map (genreSpanText genres)) ∧
    (∀ (genres : List Genre) (gid : Nat) (g : Genre),
      (genres.map Genre.id).Nodup → g ∈ genres → g.id = gid →
      genreSpanText genres gid = g.title) ∧
    (∀ (genres : List Genre) (gid : Nat),
      (∀ g ∈ genres, g.id ≠ gid) →
      genreSpanText genres gid = "Unknown (" ++ toString gid ++ ")") ∧
    genreSpans standardGenres [1, 3, 99] =
      ["Personal Growth", "History", "Unknown (99)"] := by
  refine ⟨?_, ?_, ?_, ?_, ?_⟩
  · intro genres gids
    simp [genreSpans]
  · intro genres gids k
    simp [genreSpans, List.getElem?_map]
  · intro genres gid g hnd hg hid
    have hinj := List.inj_on_of_nodup_map hnd
    rcases hfind : genres.find? (fun genre => genre.id == gid) with _ | g'
    · rw [List.find?_eq_none] at hfind
      exact absurd (by simpa using hid) (hfind g hg)
    · have hg' : g'.id = gid := by
        have := List.find?_some hfind
        simpa using this
      have hmem' : g' ∈ genres := List.mem_of_find?_eq_some hfind
      have : g' = g := hinj hmem' hg (by rw [hg', hid])
      simp [genreSpanText, hfind, this]
  · intro genres gid hnone
    have hfind : genres.find? (fun genre => genre.id == gid) = none :=
      List.find?_eq_none.mpr fun g hg => by simpa using hnone g hg
    simp [genreSpanText, hfind]
  · rfl

/-- Witness for C6: id 3 resolves to History in the standard table. -/
theorem genreResolution_spec_witness :
    genreSpanText standardGenres 3 = "History" :=
  genreResolution_spec.2.2.1 standardGenres 3 ⟨3, "History"⟩ (by decide)
    (by decide) rfl

/-- C7: when the detail fetch for a non-empty id fails (non-ok status or
transport error), the loader stores an error message containing the id
and the underlying error message, the retry action re-issues exactly the
request of that id, and that request is a GET of the `/id/` endpoint for
the id. -/
theorem fetchFailure_error_retry (id emsg : String) (resp : FetchResult)
    (st : LoaderState) (hid : id ≠ "") (hfail : errMessage resp = some emsg) :
    ∃ msg, (fetchSeriesData id resp st).error = some msg ∧
      strContains msg id ∧ strContains msg emsg ∧
      (∀ (resp' : FetchResult) (st' : LoaderState),
        (retryAction id resp' st').2 = fetchRequest id) ∧
      fetchRequest id = some ("https://podcast-api.netlify.app/id/" ++ id) := by
  refine ⟨failureMessage id emsg, ?_, ?_, ?_, fun _ _ => rfl, ?_⟩
  · cases resp with
    | ok data => simp [errMessage] at hfail
    | httpError status =>
        simp only [errMessage, Option.some.injEq] at hfail
        simp [fetchSeriesData, hid, hfail]
    | transportError message =>
        simp only [errMessage, Option.some.injEq] at hfail
        simp [fetchSeriesData, hid, hfail]
  · exact ⟨"Failed to load data for series ", ": " ++ emsg, by
      simp [failureMessage, String.append_assoc]⟩
  · exact ⟨"Failed to load data for series " ++ id ++ ": ", "", by
      simp [failureMessage, String.append_assoc]⟩
  · simp [fetchRequest, fetchUrl, hid]

/-- Witness for C7: id 42 with an HTTP 500 response. -/
theorem fetchFailure_error_retry_witness :
    ∃ msg,
      (fetchSeriesData "42" (FetchResult.httpError 500)
          initialLoaderState).error = some msg ∧
      strContains msg "42" ∧
      strContains msg ("HTTP error! status: " ++ toString 500) ∧
      (∀ (resp' : FetchResult) (st' : LoaderState),
        (retryAction "42" resp' st').2 = fetchRequest "42") ∧
      fetchRequest "42" = some ("https://podcast-api.netlify.app/id/" ++ "42") :=
  fetchFailure_error_retry "42" ("HTTP error! status: " ++ toString 500)
    (FetchResult.httpError 500) initialLoaderState (by decide) rfl

/-- C8: when the supplied show identifier is falsy, the loader's effect
performs no fetch and leaves the whole prior state — data, loading flag
and error — unchanged. -/
theorem falsyId_no_fetch (seriesId : String) (resp : FetchResult)
    (st : LoaderState) (h : seriesId = "") :
    seriesIdChangedEffect seriesId resp st = (st, none) := by
  simp [seriesIdChangedEffect, h]

/-- Witness for C8 at the empty identifier. -/
theorem falsyId_no_fetch_witness :
    seriesIdChangedEffect "" (FetchResult.httpError 500) initialLoaderState =
      (initialLoaderState, none) :=
  falsyId_no_fetch "" (FetchResult.httpError 500) initialLoaderState rfl

/-- C9: a failing fetch never touches previously loaded show data: the
error path writes only the error message. -/
theorem errorPath_preserves_seriesData (id : String) (resp : FetchResult)
    (emsg : String) (st : LoaderState) (hfail : errMessage resp = some emsg) :
    (fetchSeriesData id resp st).seriesData = st.seriesData := by
  cases resp with
  | ok data => simp [errMessage] at hfail
  | httpError status => by_cases hid : id = "" <;> simp [fetchSeriesData, hid]
  | transportError message =>
      by_cases hid : id = "" <;> simp [fetchSeriesData, hid]

/-- Witness for C9: a 500 for id 42 on a loader that already holds data. -/
theorem errorPath_preserves_seriesData_witness :
    (fetchSeriesData "42" (FetchResult.httpError 500)
        { seriesData := some ⟨"7", "t", "d", "img", "2024", []⟩,
          loading := false, error := none }).seriesData =
      ({ seriesData := some ⟨"7", "t", "d", "img", "2024", []⟩,
         loading := false, error := none } : LoaderState).seriesData :=
  errorPath_preserves_seriesData "42" (FetchResult.httpError 500)
    ("HTTP error! status: " ++ toString 500)
    { seriesData := some ⟨"7", "t", "d", "img", "2024", []⟩,
      loading := false, error := none } rfl

/-- C10: the reset performed on a seasons-reference change only writes the
index and the label: it emits no effect at all, in particular no
selection callback and no scroll, for every prior state and every new
seasons value. -/
theorem resetOnSeasonsChange_no_effects (newSeasons : List Season)
    (st : ScrollerState) :
    (resetOnSeasonsChange newSeasons st).2 = ([] : List Effect) :=
  rfl

end Podcast
